import Mathlib

/-!
Verification of `load_data.py` (`load`): a shallow embedding of the waveform
loading pipeline.  Times are modelled as rationals (seconds since epoch),
sample values as `Option ℚ` (`none` is the not-a-number sentinel), and the
external collaborators (the winston server client, the obspy merge /
detrend / bandpass routines, the configuration, and the station scale
table) as components of an explicit environment.  `load` itself is a pure
function of the environment and the call parameters, returning either a
raised Python-level error or the pair (result, emitted warnings), where the
result is `none` for the `(None, None)` sentinel.
-/

set_option autoImplicit false

deriving instance DecidableEq for Except

namespace WaveformFetch

/-- A sample value: `some q` is a finite value, `none` models numpy NaN. -/
abbrev Sample := Option ℚ

/-- An obspy trace: start time (epoch seconds), sample spacing `delta`
(seconds, the reciprocal of the sampling rate), and the data array. -/
structure Trace where
  start : ℚ
  delta : ℚ
  data : List Sample
deriving DecidableEq

/-- An obspy stream: a list of traces.  `Stream.count()` is the length. -/
abbrev Stream := List Trace

/-- Python-level errors that can escape `load`:  `TypeError` (comparing a
time against `None`), `KeyError` (dict lookup / wildcard rejection),
`IndexError` (indexing an empty stream), and a catch-all for any other
server-client error. -/
inductive PyErr where
  | typeError
  | keyError
  | indexError
  | serverError
deriving DecidableEq

/-- One row of `wclient.get_availability(...)`: the code reads fields 4 and
5 of the tuple, the availability start (`avail[0][4]`) and end
(`avail[0][5]`). -/
structure AvailRecord where
  availFrom : ℚ
  availTo : ℚ
deriving DecidableEq

/-- The six keyword parameters of `load`; every one is optional
(`None` = `Option.none`). -/
structure Params where
  network : Option String := none
  station : Option String := none
  location : Option String := none
  channel : Option String := none
  starttime : Option ℚ := none
  endtime : Option ℚ := none
deriving DecidableEq

/-- The argument dict passed to `get_availability`: all non-`None`
parameters except `starttime`/`endtime` (an absent key is `none`). -/
structure AvailArgs where
  network : Option String
  station : Option String
  location : Option String
  channel : Option String
deriving DecidableEq

/-- The argument dict passed to `get_waveforms` (an absent key is `none`). -/
structure FetchArgs where
  network : Option String
  station : Option String
  location : Option String
  channel : Option String
  starttime : Option ℚ
  endtime : Option ℚ
deriving DecidableEq

/-- The configuration values `load` reads: winston url/port, the bandpass
filter low/high cutoffs and order, the optional spectrogram window size,
and the padding (`PAD`, default 10). -/
structure Config where
  url : String
  port : ℤ
  low : ℚ
  high : ℚ
  order : ℤ
  windowSize : Option ℤ
  PAD : ℤ

/-- The two warning-level log lines `load` can emit, with the values the
f-strings interpolate (`station`, `starttime`, `endtime`). -/
inductive LogEntry where
  | noAvailability (station : Option String) (starttime endtime : Option ℚ)
  | noData (station : Option String) (starttime endtime : Option ℚ)
deriving DecidableEq

/-- The environment: configuration plus the external collaborators.
`getAvailability` and `getWaveforms` model the winston client constructed
from the configured url and port; `mergeS`, `detrendS` and `bandpassS`
model the obspy stream routines `merge(method=1, fill_value='latest',
interpolation_samples=-1)`, `detrend()` and `filter('bandpass', freqmin,
freqmax, corners, zerophase=True)` (external numerical code, out of scope —
modelled as opaque stream transforms supplied by the environment);
`stationScale` models the `stations` table restricted to the `'SCALE'`
field. -/
structure Env where
  config : Config
  getAvailability : String → ℤ → AvailArgs → List AvailRecord
  getWaveforms : String → ℤ → FetchArgs → Except PyErr Stream
  mergeS : Stream → Stream
  detrendS : Stream → Stream
  bandpassS : ℚ → ℚ → ℤ → Stream → Stream
  stationScale : List (String × ℚ)

/-- Python truthiness of an optional string (`if channel:`): `None` and the
empty string are falsy. -/
def pyTruthy : Option String → Bool
  | none => false
  | some s => s != ""

/-- `channel[:-1] + '*'`: drop the last character, append a wildcard. -/
def wildcardLast (c : String) : String := c.dropRight 1 ++ "*"

/-- The availability-query arguments (lines 49-54): every non-`None`
parameter except the two times. -/
def availArgsOf (p : Params) : AvailArgs :=
  ⟨p.network, p.station, p.location, p.channel⟩

/-- The fetch arguments before wildcarding (lines 68-72): all non-`None`
parameters, with `starttime` decreased and `endtime` increased by `PAD`
when present. -/
def baseFetchArgs (pad : ℤ) (p : Params) : FetchArgs :=
  ⟨p.network, p.station, p.location, p.channel,
   p.starttime.map (fun t => t - (pad : ℚ)),
   p.endtime.map (fun t => t + (pad : ℚ))⟩

/-- The arguments of the first `get_waveforms` call (lines 74-75): if the
channel is truthy its last character is replaced by `*`. -/
def firstFetchArgs (pad : ℤ) (p : Params) : FetchArgs :=
  if pyTruthy p.channel then
    { baseFetchArgs pad p with channel := p.channel.map wildcardLast }
  else
    baseFetchArgs pad p

/-- The availability gate (lines 54-66).  `avail[0]` on an empty list
raises `IndexError`, caught together with `AvailabilityError` and turned
into `.ok false` (log a warning, return the sentinel).  The comparison
`avail_to < starttime or avail_from > endtime` follows Python semantics:
comparing a time against `None` raises an uncaught `TypeError`, and `or`
short-circuits, so `avail_to < starttime` being true yields
`AvailabilityError` even when `endtime` is `None`.  `.ok true` means the
availability window overlaps the request and the pipeline continues. -/
def availabilityGate (env : Env) (p : Params) : Except PyErr Bool :=
  match env.getAvailability env.config.url env.config.port (availArgsOf p) with
  | [] => .ok false
  | r :: _ =>
    match p.starttime with
    | none => .error .typeError
    | some t1 =>
      if r.availTo < t1 then .ok false
      else
        match p.endtime with
        | none => .error .typeError
        | some t2 =>
          if t2 < r.availFrom then .ok false
          else .ok true

/-- The fetch with wildcard fallback (lines 74-89): issue the first fetch
with the (possibly wildcarded) channel; only a `KeyError` is caught, and
triggers exactly one retry with `args['channel'] = channel` (the exact
original channel); whatever the retry produces — value or error — is the
result. -/
def doFetch (env : Env) (p : Params) : Except PyErr Stream :=
  match env.getWaveforms env.config.url env.config.port
      (firstFetchArgs env.config.PAD p) with
  | .ok s => .ok s
  | .error .keyError =>
      env.getWaveforms env.config.url env.config.port
        { firstFetchArgs env.config.PAD p with channel := p.channel }
  | .error e => .error e

/-- numpy's float-to-integer conversion (`astype`): truncation toward
zero. -/
def truncQ (q : ℚ) : ℤ := if 0 ≤ q then ⌊q⌋ else -⌊-q⌋

/-- `tr.data = tr.data.astype(int)` (lines 97-98): truncate every sample
toward zero. -/
def Trace.asInt (tr : Trace) : Trace :=
  { tr with data := tr.data.map (fun s => s.map (fun q => ((truncQ q : ℤ) : ℚ))) }

/-- The end time of a trace (obspy `endtime`):
`start + (npts - 1) * delta`. -/
def Trace.endT (tr : Trace) : ℚ :=
  tr.start + ((tr.data.length : ℚ) - 1) * tr.delta

/-- Model of obspy `trim(t1, t2, pad=True, fill_value=numpy.nan)` on one
trace: the result keeps the trace's sample spacing, starts at `t1`, and
covers `[t1, t2]`; the sample at `t1 + k * delta` is the original sample
at that instant when the trace supplied one, and the NaN sentinel
otherwise (in particular at padded edges outside the original trace). -/
def Trace.trimTo (t1 t2 : ℚ) (tr : Trace) : Trace :=
  { tr with
    start := t1,
    data := (List.range ((⌊(t2 - t1) / tr.delta⌋).toNat + 1)).map (fun (k : ℕ) =>
      if 0 ≤ (t1 + (k : ℚ) * tr.delta - tr.start) / tr.delta ∧
          ((t1 + (k : ℚ) * tr.delta - tr.start) / tr.delta).den = 1 then
        (tr.data.get? ((t1 + (k : ℚ) * tr.delta - tr.start) / tr.delta).num.toNat).getD none
      else none) }

/-- `s / q` on a sample; NaN propagates. -/
def sDiv (s : Sample) (q : ℚ) : Sample := s.map (fun x => x / q)

/-- `a - b` on samples; NaN propagates. -/
def sSub : Sample → Sample → Sample
  | some a, some b => some (a - b)
  | _, _ => none

/-- `a + b` on samples; NaN propagates. -/
def sAdd : Sample → Sample → Sample
  | some a, some b => some (a + b)
  | _, _ => none

/-- Sum of a sample list; NaN propagates. -/
def sSum (l : List Sample) : Sample := l.foldr sAdd (some 0)

/-- numpy `mean`: NaN on an empty array, otherwise sum / length (NaN
propagates). -/
def sMean (l : List Sample) : Sample :=
  if l.length = 0 then none else (sSum l).map (fun x => x / (l.length : ℚ))

/-- The per-trace normalization loop (lines 126-128):
`trace.data /= scale` then `trace.data = trace.data - trace.data.mean()`. -/
def Trace.normalize (scale : ℚ) (tr : Trace) : Trace :=
  let divided := tr.data.map (fun s => sDiv s scale)
  { tr with data := divided.map (fun s => sSub s (sMean divided)) }

/-- `stations[station]['SCALE']` (line 124): a dict lookup that raises
`KeyError` (modelled by `none`) when the station — including a `None`
station — is not a key of the table. -/
def lookupScale (tbl : List (String × ℚ)) : Option String → Option ℚ
  | none => none
  | some s => (tbl.find? (fun kv => kv.1 == s)).map (fun kv => kv.2)

/-- Lines 119-123: `stream[0].times()` gives the per-sample offsets
`k * delta`; adding `DATA_START = stream[0].stats['starttime']` and
multiplying by 1000 before the cast to `datetime64[ms]` yields truncated
integer milliseconds. -/
def waveformTimes (tr : Trace) : List ℤ :=
  (List.range tr.data.length).map (fun (k : ℕ) =>
    truncQ (((k : ℚ) * tr.delta + tr.start) * 1000))

/-- The window-size check (line 103): Python's `and` short-circuits, so no
indexing happens when `window_size` is `None`; otherwise `stream[0]` on an
empty merged stream raises `IndexError`, and `.ok false` means too few
samples (return the sentinel, without logging). -/
def windowGate (ws : Option ℤ) (merged : Stream) : Except PyErr Bool :=
  match ws with
  | none => .ok true
  | some w =>
    match merged with
    | [] => .error .indexError
    | mtr :: _ => if (mtr.data.length : ℤ) < w then .ok false else .ok true

/-- Outcome of the pipeline up to (and including) detrend and bandpass:
either an early sentinel return with the log it emitted, or the
post-filter stream together with the (necessarily non-`None`) requested
start and end times. -/
inductive Mid where
  | sentinel (lg : List LogEntry)
  | go (s : Stream) (t1 t2 : ℚ)
deriving DecidableEq

/-- Lines 54-112 of `load`: availability gate, fetch with wildcard
fallback, the zero-trace check, dtype normalization, merge, the
window-size check, detrend and bandpass.  The final `match` on the times
mirrors the fact that `starttime - PAD` at line 115 would raise
`TypeError` on a `None` time (unreachable: the gate already evaluated both
comparisons on the `go` path). -/
def midStage (env : Env) (p : Params) : Except PyErr Mid :=
  match availabilityGate env p with
  | .error e => .error e
  | .ok false => .ok (.sentinel [.noAvailability p.station p.starttime p.endtime])
  | .ok true =>
    match doFetch env p with
    | .error e => .error e
    | .ok stream0 =>
      if stream0.length = 0 then
        .ok (.sentinel [.noData p.station p.starttime p.endtime])
      else
        match windowGate env.config.windowSize (env.mergeS (stream0.map Trace.asInt)) with
        | .error e => .error e
        | .ok false => .ok (.sentinel [])
        | .ok true =>
          match p.starttime, p.endtime with
          | some t1, some t2 =>
              .ok (.go (env.bandpassS env.config.low env.config.high env.config.order
                    (env.detrendS (env.mergeS (stream0.map Trace.asInt)))) t1 t2)
          | _, _ => .error .typeError

/-- The return type of `load`: a raised Python error, or
(result, warnings) where the result is `none` for `(None, None)` and
`some (stream, waveform_times)` otherwise. -/
abbrev LoadRet := Except PyErr (Option (Stream × List ℤ) × List LogEntry)

/-- The embedded `load` (lines 10-130): after `midStage`, trim every trace
to `[starttime - PAD, endtime + PAD]` with NaN padding, read
`DATA_START` and the sample times off `stream[0]` (an empty stream raises
`IndexError` there), look up the station scale (`KeyError` when absent),
and normalize every trace. -/
def load (env : Env) (p : Params) : LoadRet :=
  match midStage env p with
  | .error e => .error e
  | .ok (.sentinel lg) => .ok (none, lg)
  | .ok (.go s t1 t2) =>
    match s.map (Trace.trimTo (t1 - (env.config.PAD : ℚ)) (t2 + (env.config.PAD : ℚ))) with
    | [] => .error .indexError
    | tr0 :: rest =>
      match lookupScale env.stationScale p.station with
      | none => .error .keyError
      | some sc =>
          .ok (some ((tr0 :: rest).map (Trace.normalize sc), waveformTimes tr0), [])

/-! ### Concrete environments and parameters used to exercise `load` -/

/-- A baseline configuration: default port, default filter band and order,
no window-size threshold, padding of 1 second. -/
def cfg1 : Config :=
  { url := "winston", port := 16022, low := 1/2, high := 15, order := 2,
    windowSize := none, PAD := 1 }

/-- A four-sample trace starting one second before the epoch, sampled once
per second. -/
def okTrace : Trace :=
  { start := -1, delta := 1, data := [some 1, some 2, some 3, some 4] }

/-- A healthy backing data source: one wide availability record, a fetch
that returns `okTrace`, identity merge/detrend/bandpass, and a scale of 1
for station `XYZ`. -/
def envOK : Env :=
  { config := cfg1,
    getAvailability := fun _ _ _ => [⟨-100, 100⟩],
    getWaveforms := fun _ _ _ => .ok [okTrace],
    mergeS := fun s => s,
    detrendS := fun s => s,
    bandpassS := fun _ _ _ s => s,
    stationScale := [("XYZ", 1)] }

/-- A request for station `XYZ`, channel `EHZ`, the window `[0, 1]`. -/
def p0 : Params :=
  { station := some "XYZ", channel := some "EHZ",
    starttime := some 0, endtime := some 1 }

/-- Like `envOK` but the availability query returns no record at all. -/
def envNoAvail : Env :=
  { envOK with getAvailability := fun _ _ _ => [] }

/-- Like `envOK` but the availability record `(10, 20)` lies entirely after
the epoch. -/
def envAvailLate : Env :=
  { envOK with getAvailability := fun _ _ _ => [⟨10, 20⟩] }

/-- A request with no `starttime` and `endtime = 5`: the availability
record of `envAvailLate` starts after this `endtime`. -/
def pNoStart : Params :=
  { station := some "XYZ", endtime := some 5 }

/-- Like `envOK` but the fetch returns a stream with zero traces. -/
def envEmptyFetch : Env :=
  { envOK with getWaveforms := fun _ _ _ => .ok [] }

/-- Like `envOK` but with a window-size threshold of 10 (the fetched trace
has only 4 samples). -/
def envWin10 : Env :=
  { envOK with config := { cfg1 with windowSize := some 10 } }

/-- Like `envOK` but with a window-size threshold of 5 (the fetched trace
has only 4 samples). -/
def envWin5 : Env :=
  { envOK with config := { cfg1 with windowSize := some 5 } }

/-- A server that answers only the exact empty channel name and rejects
everything else with a non-`KeyError` error. -/
def envEmptyChannel : Env :=
  { envOK with getWaveforms := fun _ _ a =>
      if a.channel = some "" then .ok [okTrace] else .error .serverError }

/-- A request whose channel is the empty string: non-`None` but falsy. -/
def pEmptyChannel : Params :=
  { station := some "XYZ", channel := some "",
    starttime := some 0, endtime := some 1 }

/-- A server that rejects the wildcarded channel `EH*` with `KeyError` and
answers the exact channel. -/
def envWildcardReject : Env :=
  { envOK with getWaveforms := fun _ _ a =>
      if a.channel = some "EH*" then .error .keyError else .ok [okTrace] }

/-- Like `envOK` but the availability record ends at time 0. -/
def envAvailEnd0 : Env :=
  { envOK with getAvailability := fun _ _ _ => [⟨-5, 0⟩] }

/-- A request with `starttime = 1` (after `envAvailEnd0`'s record ends) and
no `endtime`. -/
def pNoEnd : Params :=
  { station := some "XYZ", starttime := some 1 }

/-- A request with neither `starttime` nor `endtime`. -/
def pNoTimes : Params := { station := some "XYZ" }

/-- Like `envOK` but the station scale table is empty. -/
def envNoScale : Env := { envOK with stationScale := [] }

/-! ### Specification predicates -/

/-- The padding/trimming specification relating the post-filter stream `s`
(what `stream.trim` was applied to) and the returned stream `st`: same
trace count, and each returned trace starts at `t1 - pad`, keeps its
source's sample spacing, ends exactly at `t2 + pad` whenever the padded
window is a whole number of sample intervals, and carries the NaN sentinel
at every sample instant lying outside its source trace. -/
def trimSpanSpec (pad t1 t2 : ℚ) (s st : Stream) : Prop :=
  st.length = s.length ∧
  ∀ i tr src, st.get? i = some tr → s.get? i = some src →
    tr.start = t1 - pad ∧
    tr.delta = src.delta ∧
    (0 < src.delta →
      (∃ m : ℕ, (t2 + pad) - (t1 - pad) = (m : ℚ) * src.delta) →
      tr.endT = t2 + pad) ∧
    (∀ k v, tr.data.get? k = some v → 0 < src.delta →
      ((t1 - pad) + (k : ℚ) * src.delta < src.start ∨
        src.endT < (t1 - pad) + (k : ℚ) * src.delta) →
      v = none)

/-- The logging specification of a non-raising execution of `load` with
result `res` and emitted log `lg`: a non-sentinel result logs nothing; a
sentinel result logs nothing or exactly one of the two warnings; and a
sentinel result that logged nothing can only be the insufficient-samples
path, which requires a configured window size. -/
def logSpec (env : Env) (p : Params) (res : Option (Stream × List ℤ))
    (lg : List LogEntry) : Prop :=
  (res.isSome → lg = []) ∧
  (res = none →
    lg = [] ∨
    lg = [.noAvailability p.station p.starttime p.endtime] ∨
    lg = [.noData p.station p.starttime p.endtime]) ∧
  (res = none → lg = [] → ∃ w, env.config.windowSize = some w)

/-- The wildcard-retry specification of the fetch for an exact channel
name `c`: the first fetch carries the wildcarded channel; a successful
first fetch is the result; a `KeyError` from the first fetch makes the
result exactly the retry with the unwildcarded channel; any other error of
the first fetch is the result (no retry); and a failed fetch propagates
out of `load` whenever the availability gate had passed. -/
def fetchSpec (env : Env) (p : Params) (c : String) : Prop :=
  (firstFetchArgs env.config.PAD p).channel = some (wildcardLast c) ∧
  (∀ s, env.getWaveforms env.config.url env.config.port
      (firstFetchArgs env.config.PAD p) = .ok s →
    doFetch env p = .ok s) ∧
  (env.getWaveforms env.config.url env.config.port
      (firstFetchArgs env.config.PAD p) = .error .keyError →
    doFetch env p = env.getWaveforms env.config.url env.config.port
      { firstFetchArgs env.config.PAD p with channel := some c }) ∧
  (∀ e, env.getWaveforms env.config.url env.config.port
      (firstFetchArgs env.config.PAD p) = .error e →
    e ≠ .keyError → doFetch env p = .error e) ∧
  (∀ e, availabilityGate env p = .ok true → doFetch env p = .error e →
    load env p = .error e)

/-! ### General lemmas about the pipeline pieces -/

theorem normalize_start (sc : ℚ) (tr : Trace) :
    (Trace.normalize sc tr).start = tr.start := rfl

theorem normalize_delta (sc : ℚ) (tr : Trace) :
    (Trace.normalize sc tr).delta = tr.delta := rfl

theorem normalize_length (sc : ℚ) (tr : Trace) :
    (Trace.normalize sc tr).data.length = tr.data.length := by
  simp [Trace.normalize]

theorem normalize_none (sc : ℚ) (tr : Trace) (k : ℕ)
    (h : tr.data.get? k = some none) :
    (Trace.normalize sc tr).data.get? k = some none := by
  simp only [Trace.normalize, List.get?_map, h, Option.map_some]
  rfl

theorem trimTo_start (t1 t2 : ℚ) (tr : Trace) :
    (Trace.trimTo t1 t2 tr).start = t1 := rfl

theorem trimTo_delta (t1 t2 : ℚ) (tr : Trace) :
    (Trace.trimTo t1 t2 tr).delta = tr.delta := rfl

theorem trimTo_length (t1 t2 : ℚ) (tr : Trace) :
    (Trace.trimTo t1 t2 tr).data.length = (⌊(t2 - t1) / tr.delta⌋).toNat + 1 := by
  simp [Trace.trimTo]

theorem trimTo_endT (t1 t2 : ℚ) (tr : Trace) (hd : 0 < tr.delta) (m : ℕ)
    (hm : t2 - t1 = (m : ℚ) * tr.delta) :
    (Trace.trimTo t1 t2 tr).endT = t2 := by
  unfold Trace.endT
  rw [trimTo_length, trimTo_delta, trimTo_start]
  have h1 : (t2 - t1) / tr.delta = (m : ℚ) := by
    rw [hm]
    field_simp
  rw [h1, Int.floor_natCast, Int.toNat_natCast]
  push_cast
  linarith [hm]

theorem trimTo_outside (t1 t2 : ℚ) (tr : Trace) (k : ℕ) (v : Sample)
    (hd : 0 < tr.delta)
    (hv : (Trace.trimTo t1 t2 tr).data.get? k = some v)
    (hout : t1 + (k : ℚ) * tr.delta < tr.start ∨
            tr.endT < t1 + (k : ℚ) * tr.delta) :
    v = none := by
  unfold Trace.trimTo at hv
  simp only [List.get?_map] at hv
  rcases hk : (List.range ((⌊(t2 - t1) / tr.delta⌋).toNat + 1)).get? k with _ | j
  · rw [hk] at hv
    exact absurd hv (by simp)
  · rw [hk] at hv
    have hj : j = k := by
      rcases Nat.lt_or_ge k ((⌊(t2 - t1) / tr.delta⌋).toNat + 1) with hlt | hge
      · rw [List.get?_range hlt] at hk
        exact (Option.some_injective _ hk).symm
      · rw [List.get?_eq_none.mpr (by simpa using hge)] at hk
        exact absurd hk (by simp)
    rw [hj] at hv
    simp only [Option.map_some', Option.some_inj] at hv
    by_cases hc : 0 ≤ (t1 + (k : ℚ) * tr.delta - tr.start) / tr.delta ∧
        ((t1 + (k : ℚ) * tr.delta - tr.start) / tr.delta).den = 1
    · rw [if_pos hc] at hv
      rcases hout with hlt | hgt
      · exfalso
        have hneg : (t1 + (k : ℚ) * tr.delta - tr.start) / tr.delta < 0 :=
          div_neg_of_neg_of_pos (by linarith) hd
        exact absurd hc.1 (not_le.mpr hneg)
      · set idx := (t1 + (k : ℚ) * tr.delta - tr.start) / tr.delta with hidx
        have hnum : (idx.num : ℚ) = idx := by
          conv_rhs => rw [← Rat.num_div_den idx]
          rw [hc.2]
          simp
        have hT : t1 + (k : ℚ) * tr.delta = tr.start + idx * tr.delta := by
          rw [hidx]
          field_simp
        have hlen : (tr.data.length : ℚ) - 1 < idx := by
          unfold Trace.endT at hgt
          rw [hT] at hgt
          have := (mul_lt_mul_right hd).mp (by linarith : ((tr.data.length : ℚ) - 1) * tr.delta < idx * tr.delta)
          exact this
        have hlen2 : (tr.data.length : ℤ) ≤ idx.num := by
          have : ((tr.data.length : ℤ) : ℚ) - 1 < (idx.num : ℚ) := by
            rw [hnum]
            exact_mod_cast hlen
          have h3 : ((tr.data.length : ℤ) : ℚ) < (idx.num : ℚ) + 1 := by linarith
          exact_mod_cast Int.lt_add_one_iff.mp (by exact_mod_cast h3)
        have hlen3 : tr.data.length ≤ idx.num.toNat :=
          (Int.le_toNat (Rat.num_nonneg.mpr hc.1)).mpr hlen2
        rw [List.get?_eq_none.mpr hlen3] at hv
        exact hv.symm
    · rw [if_neg hc] at hv
      exact hv.symm

theorem trimTo_get (t1 t2 : ℚ) (tr : Trace) (k : ℕ)
    (hk : k < (⌊(t2 - t1) / tr.delta⌋).toNat + 1) :
    (Trace.trimTo t1 t2 tr).data.get? k =
      some (if 0 ≤ (t1 + (k : ℚ) * tr.delta - tr.start) / tr.delta ∧
          ((t1 + (k : ℚ) * tr.delta - tr.start) / tr.delta).den = 1 then
        (tr.data.get? ((t1 + (k : ℚ) * tr.delta - tr.start) / tr.delta).num.toNat).getD none
      else none) := by
  unfold Trace.trimTo
  simp only [List.get?_map, List.get?_range hk, Option.map_some']

/-- Unfolding of `load` past a successful `midStage`. -/
theorem load_go (env : Env) (p : Params) (s : Stream) (t1 t2 : ℚ)
    (h : midStage env p = .ok (.go s t1 t2)) :
    load env p =
      match s.map (Trace.trimTo (t1 - (env.config.PAD : ℚ)) (t2 + (env.config.PAD : ℚ))) with
      | [] => .error .indexError
      | tr0 :: rest =>
        match lookupScale env.stationScale p.station with
        | none => .error .keyError
        | some sc =>
            .ok (some ((tr0 :: rest).map (Trace.normalize sc), waveformTimes tr0), []) := by
  unfold load
  rw [h]

theorem normalize_endT (sc : ℚ) (tr : Trace) :
    (Trace.normalize sc tr).endT = tr.endT := by
  unfold Trace.endT
  rw [normalize_start, normalize_delta, normalize_length]

theorem waveformTimes_length (tr : Trace) :
    (waveformTimes tr).length = tr.data.length := by
  simp [waveformTimes]

theorem waveformTimes_get (tr : Trace) (k : ℕ) (h : k < tr.data.length) :
    (waveformTimes tr).get? k =
      some (truncQ (((k : ℚ) * tr.delta + tr.start) * 1000)) := by
  simp only [waveformTimes, List.get?_map, List.get?_range h, Option.map_some']

/-- Inversion of a successful, non-sentinel run of `load`. -/
theorem load_ok_some_inv (env : Env) (p : Params) (st : Stream) (w : List ℤ)
    (lg : List LogEntry) (h : load env p = .ok (some (st, w), lg)) :
    ∃ s t1 t2 tr0 rest sc,
      midStage env p = .ok (.go s t1 t2) ∧
      s.map (Trace.trimTo (t1 - (env.config.PAD : ℚ)) (t2 + (env.config.PAD : ℚ)))
        = tr0 :: rest ∧
      lookupScale env.stationScale p.station = some sc ∧
      st = (tr0 :: rest).map (Trace.normalize sc) ∧
      w = waveformTimes tr0 ∧ lg = [] := by
  cases hmid : midStage env p with
  | error e =>
    unfold load at h
    rw [hmid] at h
    exact absurd h (by simp)
  | ok m =>
    cases m with
    | sentinel lg' =>
      unfold load at h
      rw [hmid] at h
      simp at h
    | go s t1 t2 =>
      rw [load_go env p s t1 t2 hmid] at h
      rcases htr : s.map (Trace.trimTo (t1 - (env.config.PAD : ℚ))
          (t2 + (env.config.PAD : ℚ))) with _ | ⟨tr0, rest⟩
      · rw [htr] at h
        exact absurd h (by simp)
      · rw [htr] at h
        cases hsc : lookupScale env.stationScale p.station with
        | none =>
          rw [hsc] at h
          exact absurd h (by simp)
        | some sc =>
          rw [hsc] at h
          simp only [Except.ok.injEq, Prod.mk.injEq, Option.some_inj] at h
          exact ⟨s, t1, t2, tr0, rest, sc, rfl, htr, rfl,
            h.1.1.symm, h.1.2.symm, h.2.symm⟩

/-- Inversion of a sentinel-producing `midStage`: the emitted log is one of
the two warnings, or empty via the window-size branch. -/
theorem midStage_sentinel_inv (env : Env) (p : Params) (lg : List LogEntry)
    (h : midStage env p = .ok (.sentinel lg)) :
    lg = [.noAvailability p.station p.starttime p.endtime] ∨
    lg = [.noData p.station p.starttime p.endtime] ∨
    (lg = [] ∧ ∃ w, env.config.windowSize = some w) := by
  unfold midStage at h
  cases hg : availabilityGate env p with
  | error e =>
    rw [hg] at h
    simp at h
  | ok b =>
    cases b with
    | false =>
      rw [hg] at h
      simp only [] at h
      simp only [Except.ok.injEq, Mid.sentinel.injEq] at h
      exact Or.inl h.symm
    | true =>
      rw [hg] at h
      simp only [] at h
      cases hf : doFetch env p with
      | error e =>
        rw [hf] at h
        simp at h
      | ok stream0 =>
        rw [hf] at h
        simp only [] at h
        by_cases hz : stream0.length = 0
        · rw [if_pos hz] at h
          simp only [Except.ok.injEq, Mid.sentinel.injEq] at h
          exact Or.inr (Or.inl h.symm)
        · rw [if_neg hz] at h
          cases hw : windowGate env.config.windowSize
              (env.mergeS (stream0.map Trace.asInt)) with
          | error e =>
            rw [hw] at h
            simp at h
          | ok b2 =>
            cases b2 with
            | false =>
              rw [hw] at h
              simp only [] at h
              simp only [Except.ok.injEq, Mid.sentinel.injEq] at h
              refine Or.inr (Or.inr ⟨h.symm, ?_⟩)
              unfold windowGate at hw
              cases hws : env.config.windowSize with
              | none =>
                rw [hws] at hw
                simp at hw
              | some wsz => exact ⟨wsz, rfl⟩
            | true =>
              rw [hw] at h
              simp only [] at h
              cases hst : p.starttime with
              | none =>
                rw [hst] at h
                simp at h
              | some t1 =>
                cases het : p.endtime with
                | none =>
                  rw [hst, het] at h
                  simp at h
                | some t2 =>
                  rw [hst, het] at h
                  simp at h

/-! ### Concrete evaluations -/

theorem asInt_okTrace : Trace.asInt okTrace = okTrace := by
  norm_num [Trace.asInt, truncQ, okTrace]

theorem trim_okTrace : Trace.trimTo (-1) 2 okTrace = okTrace := by
  have hf : (⌊((2 : ℚ) - (-1)) / (1 : ℚ)⌋) = 3 := by norm_num
  unfold Trace.trimTo
  rw [okTrace]
  norm_num [hf]
  norm_num [show List.range (Int.toNat 3 + 1) = [0, 1, 2, 3] from rfl,
    Rat.den_ofNat, Rat.num_ofNat]

theorem normalize_okTrace : Trace.normalize 1 okTrace =
    { start := -1, delta := 1,
      data := [some (-3/2), some (-1/2), some (1/2), some (3/2)] } := by
  norm_num [Trace.normalize, sDiv, sSub, sMean, sSum, sAdd, okTrace]

theorem waveformTimes_okTrace : waveformTimes okTrace = [-1000, 0, 1000, 2000] := by
  norm_num [waveformTimes, okTrace, truncQ,
    show List.range 4 = [0, 1, 2, 3] from rfl]

theorem midStage_envOK_p0 : midStage envOK p0 = .ok (.go [okTrace] 0 1) := by
  norm_num [midStage, availabilityGate, doFetch, windowGate, firstFetchArgs,
    baseFetchArgs, pyTruthy, availArgsOf, Trace.asInt, truncQ,
    envOK, cfg1, p0, okTrace]

theorem load_envOK_p0 : load envOK p0 =
    .ok (some ([{ start := -1, delta := 1,
                  data := [some (-3/2), some (-1/2), some (1/2), some (3/2)] }],
               [-1000, 0, 1000, 2000]), []) := by
  rw [load_go envOK p0 [okTrace] 0 1 midStage_envOK_p0]
  norm_num [envOK, cfg1, lookupScale, p0, List.find?, trim_okTrace,
    normalize_okTrace, waveformTimes_okTrace]

theorem midStage_envNoScale_p0 : midStage envNoScale p0 = .ok (.go [okTrace] 0 1) := by
  norm_num [midStage, availabilityGate, doFetch, windowGate, firstFetchArgs,
    baseFetchArgs, pyTruthy, availArgsOf, Trace.asInt, truncQ,
    envNoScale, envOK, cfg1, p0, okTrace]

theorem load_envNoAvail_p0 : load envNoAvail p0 =
    .ok (none, [.noAvailability (some "XYZ") (some 0) (some 1)]) := rfl

theorem gate_envEmptyFetch_p0 : availabilityGate envEmptyFetch p0 = .ok true := by
  norm_num [availabilityGate, envEmptyFetch, envOK, cfg1, p0, availArgsOf]

theorem gate_envWin10_p0 : availabilityGate envWin10 p0 = .ok true := by
  norm_num [availabilityGate, envWin10, envOK, cfg1, p0, availArgsOf]

/-! ### Claims -/

/-- Claim C1 (amended): if the availability query returns no record, or it
returns a record and a `starttime` is given with the record's end earlier
than it, or it returns a record and both times are given with the record's
start later than the `endtime`, then `load` returns the `(None, None)`
sentinel, logs the no-availability warning, and attempts no fetch (the
result is the same for every possible `get_waveforms` behaviour).  The
claim's original wording also promised the sentinel when the record's
start is later than the given `endtime` but `starttime` is `None`; there
the comparison raises `TypeError` instead (see the counterexample). -/
theorem C1_availability_soft_fail (env : Env) (p : Params)
    (h : env.getAvailability env.config.url env.config.port (availArgsOf p) = [] ∨
      (∃ r rest t1,
        env.getAvailability env.config.url env.config.port (availArgsOf p) = r :: rest ∧
        p.starttime = some t1 ∧ r.availTo < t1) ∨
      (∃ r rest t1 t2,
        env.getAvailability env.config.url env.config.port (availArgsOf p) = r :: rest ∧
        p.starttime = some t1 ∧ p.endtime = some t2 ∧ t2 < r.availFrom)) :
    ∀ gw, load { env with getWaveforms := gw } p =
      .ok (none, [.noAvailability p.station p.starttime p.endtime]) := by
  have hg : availabilityGate env p = .ok false := by
    unfold availabilityGate
    rcases h with h0 | ⟨r, rest, t1, hav, hst, hlt⟩ | ⟨r, rest, t1, t2, hav, hst, het, hgt⟩
    · rw [h0]
    · rw [hav, hst]
      simp only []
      rw [if_pos hlt]
    · rw [hav, hst]
      simp only []
      by_cases hc : r.availTo < t1
      · rw [if_pos hc]
      · rw [if_neg hc, het]
        simp only []
        rw [if_pos hgt]
  intro gw
  have hg2 : availabilityGate { env with getWaveforms := gw } p = .ok false := hg
  unfold load midStage
  rw [hg2]

/-- Claim C1, counterexample to the original wording: the availability
record `(10, 20)` starts after the requested `endtime = 5`, yet with
`starttime = None` the call raises `TypeError` instead of returning the
sentinel. -/
theorem C1_availability_counterexample :
    envAvailLate.getAvailability envAvailLate.config.url envAvailLate.config.port
        (availArgsOf pNoStart) = [⟨10, 20⟩] ∧
    pNoStart.starttime = none ∧
    pNoStart.endtime = some 5 ∧
    (5 : ℚ) < 10 ∧
    load envAvailLate pNoStart = .error .typeError := by
  refine ⟨rfl, rfl, rfl, by norm_num, rfl⟩

/-- Witness for C1 at a concrete input: the empty availability answer of
`envNoAvail` makes `load` return the sentinel and log the warning. -/
theorem C1_availability_soft_fail_witness :
    load envNoAvail p0 = .ok (none, [.noAvailability (some "XYZ") (some 0) (some 1)]) :=
  C1_availability_soft_fail envNoAvail p0 (Or.inl rfl) envNoAvail.getWaveforms

/-- Claim C2: when the availability gate passes but the fetch returns a
stream with zero traces, `load` returns the `(None, None)` sentinel and
logs the no-data warning carrying the station name and the requested time
range. -/
theorem C2_zero_traces_sentinel (env : Env) (p : Params)
    (hA : availabilityGate env p = .ok true)
    (hF : doFetch env p = .ok []) :
    load env p = .ok (none, [.noData p.station p.starttime p.endtime]) := by
  unfold load midStage
  rw [hA, hF]
  rfl

/-- Witness for C2 at a concrete input: `envEmptyFetch` answers every fetch
with an empty stream. -/
theorem C2_zero_traces_sentinel_witness :
    load envEmptyFetch p0 = .ok (none, [.noData (some "XYZ") (some 0) (some 1)]) :=
  C2_zero_traces_sentinel envEmptyFetch p0 gate_envEmptyFetch_p0 rfl

/-- Claim C5: when a window-size threshold is configured and the merged
primary trace has fewer samples than it, `load` returns the `(None, None)`
sentinel even though both the availability gate and the fetch succeeded
(and, per the code, logs nothing on this path). -/
theorem C5_window_size_sentinel (env : Env) (p : Params) (s : Stream)
    (mtr : Trace) (mrest : List Trace) (w : ℤ)
    (hA : availabilityGate env p = .ok true)
    (hF : doFetch env p = .ok s)
    (hne : s ≠ [])
    (hw : env.config.windowSize = some w)
    (hm : env.mergeS (s.map Trace.asInt) = mtr :: mrest)
    (hlt : (mtr.data.length : ℤ) < w) :
    load env p = .ok (none, []) := by
  have hwg : windowGate env.config.windowSize (env.mergeS (s.map Trace.asInt))
      = .ok false := by
    rw [hw, hm]
    unfold windowGate
    simp only []
    rw [if_pos hlt]
  have hmid : midStage env p = .ok (.sentinel []) := by
    unfold midStage
    rw [hA, hF]
    simp only []
    rw [if_neg (by simpa using hne), hwg]
  unfold load
  rw [hmid]

/-- Witness for C5 at a concrete input: `envWin10` demands 10 samples but
the merged trace has 4. -/
theorem C5_window_size_sentinel_witness : load envWin10 p0 = .ok (none, []) :=
  C5_window_size_sentinel envWin10 p0 [okTrace] (Trace.asInt okTrace) [] 10
    gate_envWin10_p0 rfl (by simp) rfl rfl (by decide)

/-- Claim C8: `load` is deterministic — two calls with the same parameters
against the same configuration and backing data source (availability
answers, waveform answers, merge/detrend/filter behaviour, station scale
table) return identical results. -/
theorem C8_deterministic (env1 env2 : Env) (p1 p2 : Params)
    (he : env1 = env2) (hp : p1 = p2) :
    load env1 p1 = load env2 p2 := by
  rw [he, hp]

/-- Witness for C8 at a concrete input. -/
theorem C8_deterministic_witness : load envOK p0 = load envOK p0 :=
  C8_deterministic envOK envOK p0 p0 rfl rfl

/-- Claim C9 (amended): when the availability query returns at least one
record, a `None` `starttime` makes the window comparison raise an uncaught
`TypeError`; with a given `starttime`, a `None` `endtime` raises the
uncaught `TypeError` only when the record's end is not earlier than the
`starttime` — otherwise Python's `or` short-circuits and `load` returns
the soft-failure sentinel instead (see the counterexample). -/
theorem C9_none_time_type_error (env : Env) (p : Params) (r : AvailRecord)
    (rest : List AvailRecord)
    (h : env.getAvailability env.config.url env.config.port (availArgsOf p)
      = r :: rest) :
    (p.starttime = none → load env p = .error .typeError) ∧
    (∀ t1, p.starttime = some t1 → ¬ r.availTo < t1 → p.endtime = none →
      load env p = .error .typeError) := by
  constructor
  · intro hst
    have hg : availabilityGate env p = .error .typeError := by
      unfold availabilityGate
      rw [h, hst]
    unfold load midStage
    rw [hg]
  · intro t1 hst hnlt het
    have hg : availabilityGate env p = .error .typeError := by
      unfold availabilityGate
      rw [h, hst]
      simp only []
      rw [if_neg hnlt, het]
    unfold load midStage
    rw [hg]

/-- Claim C9, counterexample to the original wording: the availability
record `(-5, 0)` exists and `endtime` is `None`, yet with `starttime = 1`
(after the record's end) the short-circuited comparison returns the
sentinel, not a `TypeError`. -/
theorem C9_none_time_counterexample :
    pNoEnd.endtime = none ∧
    envAvailEnd0.getAvailability envAvailEnd0.config.url envAvailEnd0.config.port
      (availArgsOf pNoEnd) = [⟨-5, 0⟩] ∧
    load envAvailEnd0 pNoEnd =
      .ok (none, [.noAvailability (some "XYZ") (some 1) none]) := by
  refine ⟨rfl, rfl, ?_⟩
  have hg : availabilityGate envAvailEnd0 pNoEnd = .ok false := by
    norm_num [availabilityGate, envAvailEnd0, envOK, cfg1, pNoEnd, availArgsOf]
  unfold load midStage
  rw [hg]
  rfl

/-- Witness for C9 at a concrete input: both requested times absent, one
availability record present. -/
theorem C9_none_time_type_error_witness :
    (pNoTimes.starttime = none → load envAvailEnd0 pNoTimes = .error .typeError) ∧
    (∀ t1, pNoTimes.starttime = some t1 → ¬ (AvailRecord.mk (-5) 0).availTo < t1 →
      pNoTimes.endtime = none → load envAvailEnd0 pNoTimes = .error .typeError) :=
  C9_none_time_type_error envAvailEnd0 pNoTimes ⟨-5, 0⟩ [] rfl

/-- Claim C10: when availability, fetch, merge and the window-size check
all pass but the station is absent from the station scale table, `load`
raises an uncaught `KeyError` (it does not return the sentinel). -/
theorem C10_missing_scale_key_error (env : Env) (p : Params) (s : Stream)
    (t1 t2 : ℚ)
    (hmid : midStage env p = .ok (.go s t1 t2)) (hne : s ≠ [])
    (hsc : lookupScale env.stationScale p.station = none) :
    load env p = .error .keyError := by
  rw [load_go env p s t1 t2 hmid]
  rcases htr : s.map (Trace.trimTo (t1 - (env.config.PAD : ℚ))
      (t2 + (env.config.PAD : ℚ))) with _ | ⟨tr0, rest⟩
  · exact absurd (List.map_eq_nil.mp htr) hne
  · simp only []
    rw [hsc]

/-- Witness for C10 at a concrete input: `envNoScale` has an empty station
scale table. -/
theorem C10_missing_scale_key_error_witness :
    load envNoScale p0 = .error .keyError :=
  C10_missing_scale_key_error envNoScale p0 [okTrace] 0 1
    midStage_envNoScale_p0 (by simp) rfl

/-- Claim C3: on a non-sentinel return, every returned trace starts exactly
at `starttime - PAD`; it ends exactly at `endtime + PAD` whenever the
padded window is a whole number of its (positive) sample intervals; and
every sample instant falling outside the trace that came out of the
merge/detrend/filter stage is the NaN sentinel (the padding added by
`trim`). -/
theorem C3_trim_span (env : Env) (p : Params) (s : Stream) (t1 t2 : ℚ)
    (st : Stream) (w : List ℤ) (lg : List LogEntry)
    (hmid : midStage env p = .ok (.go s t1 t2))
    (hload : load env p = .ok (some (st, w), lg)) :
    trimSpanSpec (env.config.PAD : ℚ) t1 t2 s st := by
  rw [load_go env p s t1 t2 hmid] at hload
  rcases htr : s.map (Trace.trimTo (t1 - (env.config.PAD : ℚ))
      (t2 + (env.config.PAD : ℚ))) with _ | ⟨tr0, rest⟩
  · rw [htr] at hload
    simp at hload
  · rw [htr] at hload
    simp only [] at hload
    cases hsc : lookupScale env.stationScale p.station with
    | none =>
      rw [hsc] at hload
      simp at hload
    | some sc =>
      rw [hsc] at hload
      simp only [Except.ok.injEq, Prod.mk.injEq, Option.some_inj] at hload
      obtain ⟨⟨hst, _⟩, _⟩ := hload
      subst hst
      rw [← htr]
      constructor
      · simp
      · intro i tr src hti hsi
        rw [List.get?_map, List.get?_map, hsi] at hti
        simp only [Option.map_some', Option.some_inj] at hti
        subst hti
        refine ⟨?_, ?_, ?_, ?_⟩
        · rw [normalize_start, trimTo_start]
        · rw [normalize_delta, trimTo_delta]
        · rintro hd ⟨m, hm⟩
          rw [normalize_endT]
          exact trimTo_endT _ _ _ hd m hm
        · intro k v hkv hd hout
          simp only [Trace.normalize, List.get?_map] at hkv
          rcases hb : (Trace.trimTo (t1 - (env.config.PAD : ℚ))
              (t2 + (env.config.PAD : ℚ)) src).data.get? k with _ | v0
          · rw [hb] at hkv
            simp at hkv
          · rw [hb] at hkv
            simp only [Option.map_some', Option.some_inj] at hkv
            have h0 : v0 = none :=
              trimTo_outside (t1 - (env.config.PAD : ℚ)) (t2 + (env.config.PAD : ℚ))
                src k v0 hd hb hout
            rw [h0] at hkv
            exact hkv.symm

/-- Witness for C3 at a concrete input: the window `[0, 1]` padded by 1
second, one four-sample trace at one sample per second. -/
theorem C3_trim_span_witness :
    trimSpanSpec (envOK.config.PAD : ℚ) 0 1 [okTrace]
      [{ start := -1, delta := 1,
         data := [some (-3/2), some (-1/2), some (1/2), some (3/2)] }] :=
  C3_trim_span envOK p0 [okTrace] 0 1
    [{ start := -1, delta := 1,
       data := [some (-3/2), some (-1/2), some (1/2), some (3/2)] }]
    [-1000, 0, 1000, 2000] [] midStage_envOK_p0 load_envOK_p0

/-- Claim C4: on a non-sentinel return, the timestamp series has exactly
one entry per sample of the first returned trace, and entry `k` is the
trace's actual start time plus `k` sample intervals, truncated to integer
milliseconds. -/
theorem C4_timestamps (env : Env) (p : Params) (st : Stream) (w : List ℤ)
    (lg : List LogEntry)
    (hload : load env p = .ok (some (st, w), lg)) :
    ∃ tr0 rest, st = tr0 :: rest ∧ w.length = tr0.data.length ∧
      ∀ k, k < w.length →
        w.get? k = some (truncQ (((k : ℚ) * tr0.delta + tr0.start) * 1000)) := by
  obtain ⟨s, t1, t2, tr0, rest, sc, hmid, htr, hsc, hst, hw, hlg⟩ :=
    load_ok_some_inv env p st w lg hload
  refine ⟨Trace.normalize sc tr0, rest.map (Trace.normalize sc), ?_, ?_, ?_⟩
  · rw [hst]
    rfl
  · rw [hw, waveformTimes_length, normalize_length]
  · intro k hk
    rw [hw] at hk ⊢
    rw [waveformTimes_length] at hk
    rw [waveformTimes_get tr0 k hk, normalize_delta, normalize_start]

/-- Witness for C4 at a concrete input. -/
theorem C4_timestamps_witness :
    ∃ tr0 rest,
      ([{ start := -1, delta := 1,
          data := [some (-3/2), some (-1/2), some (1/2), some (3/2)] }] : Stream)
        = tr0 :: rest ∧
      ([(-1000 : ℤ), 0, 1000, 2000]).length = tr0.data.length ∧
      ∀ k, k < ([(-1000 : ℤ), 0, 1000, 2000]).length →
        ([(-1000 : ℤ), 0, 1000, 2000]).get? k =
          some (truncQ (((k : ℚ) * tr0.delta + tr0.start) * 1000)) :=
  C4_timestamps envOK p0
    [{ start := -1, delta := 1,
       data := [some (-3/2), some (-1/2), some (1/2), some (3/2)] }]
    [-1000, 0, 1000, 2000] [] load_envOK_p0

/-- Claim C6 (amended): a non-sentinel return emits no log message; a
sentinel return emits either exactly one of the two warnings or — on the
insufficient-samples path only, which requires a configured window size —
no log message at all.  The claim's original wording promised a warning on
every sentinel return; the window-size path emits none (see the
counterexample). -/
theorem C6_soft_fail_logging (env : Env) (p : Params)
    (res : Option (Stream × List ℤ)) (lg : List LogEntry)
    (h : load env p = .ok (res, lg)) :
    logSpec env p res lg := by
  cases hmid : midStage env p with
  | error e =>
    unfold load at h
    rw [hmid] at h
    simp at h
  | ok m =>
    cases m with
    | sentinel lg' =>
      unfold load at h
      rw [hmid] at h
      simp only [] at h
      simp only [Except.ok.injEq, Prod.mk.injEq] at h
      obtain ⟨hres, hlg⟩ := h
      subst hres
      subst hlg
      have hcl := midStage_sentinel_inv env p lg' hmid
      refine ⟨?_, ?_, ?_⟩
      · intro hs
        simp at hs
      · intro _
        rcases hcl with h1 | h2 | ⟨h3, _⟩
        · exact Or.inr (Or.inl h1)
        · exact Or.inr (Or.inr h2)
        · exact Or.inl h3
      · intro _ hlg0
        rcases hcl with h1 | h2 | ⟨_, hw⟩
        · rw [hlg0] at h1
          exact absurd h1 (by simp)
        · rw [hlg0] at h2
          exact absurd h2 (by simp)
        · exact hw
    | go s t1 t2 =>
      rw [load_go env p s t1 t2 hmid] at h
      rcases htr : s.map (Trace.trimTo (t1 - (env.config.PAD : ℚ))
          (t2 + (env.config.PAD : ℚ))) with _ | ⟨tr0, rest⟩
      · rw [htr] at h
        simp at h
      · rw [htr] at h
        simp only [] at h
        cases hsc : lookupScale env.stationScale p.station with
        | none =>
          rw [hsc] at h
          simp at h
        | some sc =>
          rw [hsc] at h
          simp only [Except.ok.injEq, Prod.mk.injEq] at h
          obtain ⟨hres, hlg⟩ := h
          refine ⟨?_, ?_, ?_⟩
          · intro _
            exact hlg.symm
          · intro hres0
            rw [← hres] at hres0
            simp at hres0
          · intro hres0 _
            rw [← hres] at hres0
            simp at hres0

/-- Claim C6, counterexample to the original wording: the
insufficient-samples soft failure of `envWin5` returns the sentinel with
an empty log — no warning is emitted. -/
theorem C6_soft_fail_logging_counterexample :
    load envWin5 p0 = .ok (none, []) := by
  norm_num [load, midStage, availabilityGate, doFetch, windowGate, firstFetchArgs,
    baseFetchArgs, pyTruthy, availArgsOf, Trace.asInt, truncQ,
    envWin5, envOK, cfg1, p0, okTrace]

/-- Witness for C6 at a concrete input: the no-availability sentinel with
its single warning. -/
theorem C6_soft_fail_logging_witness :
    logSpec envNoAvail p0 none [.noAvailability (some "XYZ") (some 0) (some 1)] :=
  C6_soft_fail_logging envNoAvail p0 none
    [.noAvailability (some "XYZ") (some 0) (some 1)] load_envNoAvail_p0

/-- Claim C7 (amended): for a non-`None`, non-empty channel, the first
fetch carries the channel with its last character replaced by `*`; the
retry with the exact channel happens exactly when the first fetch raises
the server-client lookup error (`KeyError`), and whatever the retry
raises or returns is the final result; any other first-fetch error
propagates without a retry, and a failed fetch propagates out of `load`.
The claim's original wording covered every non-`None` channel, but the
code tests Python truthiness, so the empty-string channel is fetched
unwildcarded (see the counterexample). -/
theorem C7_wildcard_retry (env : Env) (p : Params) (c : String)
    (hc : p.channel = some c) (hne : c ≠ "") :
    fetchSpec env p c := by
  have hw : firstFetchArgs env.config.PAD p =
      { baseFetchArgs env.config.PAD p with channel := some (wildcardLast c) } := by
    unfold firstFetchArgs
    rw [hc]
    have htr : pyTruthy (some c) = true := by simp [pyTruthy, hne]
    rw [if_pos htr]
    rfl
  refine ⟨?_, ?_, ?_, ?_, ?_⟩
  · rw [hw]
  · intro s hs
    unfold doFetch
    rw [hs]
  · intro hk
    unfold doFetch
    rw [hk]
    simp only []
    rw [hc]
  · intro e he hne2
    unfold doFetch
    rw [he]
    cases e with
    | keyError => exact absurd rfl hne2
    | typeError => rfl
    | indexError => rfl
    | serverError => rfl
  · intro e hg hf
    unfold load midStage
    rw [hg, hf]

/-- Claim C7, counterexample to the original wording: the channel `""` is
non-`None` but falsy, so the first fetch goes out with the unmodified
empty channel rather than the wildcard `"*"`, as shown by a server that
only answers the exact empty channel and rejects everything else with a
non-lookup error. -/
theorem C7_wildcard_retry_counterexample :
    pEmptyChannel.channel = some "" ∧
    wildcardLast "" = "*" ∧
    (firstFetchArgs envEmptyChannel.config.PAD pEmptyChannel).channel = some "" ∧
    doFetch envEmptyChannel pEmptyChannel = .ok [okTrace] ∧
    envEmptyChannel.getWaveforms envEmptyChannel.config.url
        envEmptyChannel.config.port
        { firstFetchArgs envEmptyChannel.config.PAD pEmptyChannel with
            channel := some "*" }
      = .error .serverError :=
  ⟨rfl, rfl, rfl, rfl, rfl⟩

/-- Witness for C7 at a concrete input: channel `EHZ`, a server that
rejects `EH*` with `KeyError` and answers the exact channel. -/
theorem C7_wildcard_retry_witness : fetchSpec envWildcardReject p0 "EHZ" :=
  C7_wildcard_retry envWildcardReject p0 "EHZ" rfl (by decide)

end WaveformFetch
